import Mathlib

/-!
Verification of the glossary-translator web app (src/app.py).

The app keeps a two-column glossary (columns "영어" and "한글"), a free-text
style guide, and a notepad; it assembles a system prompt from the glossary and
style guide and forwards user text to an external completion call.

Shallow embedding choices:
- A pandas DataFrame row of the glossary is a `GlossaryRow` whose fields are
  `Option String`: `none` models a NaN/missing cell (pandas `dropna`/`notna`
  operate on exactly that distinction).
- The glossary table is a `List GlossaryRow` (row order preserved).
- `str.lower()` is modelled by `String.toLower`.
- The external completion call is a parameter
  `complete : String → String → Except String String` (system prompt, user
  text); `Except.error` models any raised exception. The Bool returned by
  `translate_with_openai` records whether the external call was performed.
- The persisted style-guide file is an `Option String` (`none` = file absent),
  threaded explicitly through `load_style_guide`.
-/

/-- Python `str.lower()`, modelled character-wise (structurally, so that the
kernel can evaluate it on concrete strings). On the ASCII terms the app
compares this agrees with Python. -/
def pyLower (s : String) : String :=
  String.mk (s.data.map Char.toLower)

/-- A character stripped by Python `str.strip()` (ASCII whitespace). -/
def isPySpace (c : Char) : Bool :=
  c = ' ' || c = '\t' || c = '\n' || c = '\r' || c = '\x0b' || c = '\x0c'

/-- Python `str.strip()`: remove leading and trailing whitespace, modelled
structurally over the character list. -/
def pyStrip (s : String) : String :=
  String.mk (((s.data.dropWhile isPySpace).reverse.dropWhile isPySpace).reverse)

/-- One row of the glossary table. `eng` is the "영어" (source-term) cell and
`kor` the "한글" (target-term) cell; `none` models a missing/NaN cell. -/
structure GlossaryRow where
  eng : Option String
  kor : Option String
deriving DecidableEq

/-- `set(current_df['영어'].str.lower().dropna())` (app.py line 165): the
lower-cased source terms present in a table (missing cells dropped).
Modelled as a list; only membership is ever used, matching the Python set. -/
def existingWords (current : List GlossaryRow) : List String :=
  (current.filterMap (fun r => r.eng)).map pyLower

/-- `new_df.dropna(subset=['영어','한글'], how='any')` (app.py line 167):
keep only the rows where both cells are present. -/
def dropMissing (rows : List GlossaryRow) : List GlossaryRow :=
  rows.filter (fun r => r.eng.isSome && r.kor.isSome)

/-- `new_df['영어'].str.lower().isin(existing_words)` for one row (app.py
line 168): the row's lower-cased source term already occurs in `current`.
A row with a missing source term is never reported as a duplicate (in pandas
`isin` is false on NaN). -/
def rowIsDup (current : List GlossaryRow) (r : GlossaryRow) : Bool :=
  match r.eng with
  | some e => decide (pyLower e ∈ existingWords current)
  | none => false

/-- The bulk-import merge, app.py lines 164-176: drop incoming rows with a
missing cell, keep those whose lower-cased source term is not already in
`existing`, append them (when there are any), and report
`(merged, added_count, skipped_count)`. -/
def mergeGlossary (existing incoming : List GlossaryRow) :
    List GlossaryRow × Nat × Nat :=
  let cleaned := dropMissing incoming
  let uniqueNewRows := cleaned.filter (fun r => !(rowIsDup existing r))
  let added := uniqueNewRows.length
  let skipped := cleaned.length - added
  let merged := if added > 0 then existing ++ uniqueNewRows else existing
  (merged, added, skipped)

/-- The per-row serialization of app.py line 73: a row with both cells present
(`pd.notna`) yields the line `- <영어>: <한글>`; any other row yields no line. -/
def glossaryLine (r : GlossaryRow) : Option String :=
  match r.eng, r.kor with
  | some e, some k => some ("- " ++ e ++ ": " ++ k)
  | _, _ => none

/-- The list comprehension of app.py line 73: one line per valid row, invalid
rows skipped. -/
def glossaryLines (g : List GlossaryRow) : List String :=
  g.filterMap glossaryLine

/-- `glossary_text` of app.py line 73: the lines joined with newlines. -/
def glossary_text (g : List GlossaryRow) : String :=
  String.intercalate "\n" (glossaryLines g)

/-- The interpolation `{glossary_text if glossary_text else "No specific terms
provided."}` of app.py line 89 (an empty string is falsy in Python). -/
def glossaryBlock (g : List GlossaryRow) : String :=
  if glossary_text g = "" then "No specific terms provided." else glossary_text g

/-- The fixed text of the f-string (app.py lines 76-84) up to the STYLE GUIDE
opening delimiter. -/
def promptHead : String :=
  "\nYou are an expert translator. Your only job is to translate the given English text into natural Korean.\nYour output must be ONLY the translated text itself, without any additional phrases, explanations, or greetings.\n\nFollow these rules strictly:\n1.  **Structure Preservation**: Preserve the original paragraph structure. If the input text has multiple paragraphs (separated by newlines), the translated output MUST also have the same number of paragraphs.\n2.  **Translation Style**: Adhere to the following style guide.\n    "

/-- The fixed text of the f-string (app.py lines 85-88) between the STYLE
GUIDE block and the GLOSSARY opening delimiter. -/
def promptMid : String :=
  "\n\n3.  **Glossary**: You MUST use the translations provided in this glossary for the specified terms.\n    "

/-- The trailing newline of the f-string (app.py line 91). -/
def promptTail : String :=
  "\n"

/-- `system_prompt` of app.py lines 76-91: the f-string, with the style guide
and the glossary block interpolated between their section delimiters. -/
def system_prompt (g : List GlossaryRow) (style_guide : String) : String :=
  promptHead ++
    ("--- STYLE GUIDE ---\n    " ++ style_guide ++ "\n    --- END STYLE GUIDE ---") ++
    promptMid ++
    ("--- GLOSSARY ---\n    " ++ glossaryBlock g ++ "\n    --- END GLOSSARY ---") ++
    promptTail

/-- `translate_with_openai` of app.py lines 67-106. Returns the Python result
(`some s` for a returned string, `none` for the `None` returned from the
except branch) paired with a Bool recording whether the external completion
call was performed. -/
def translate_with_openai (text : String) (glossary : List GlossaryRow)
    (style_guide : String)
    (complete : String → String → Except String String) :
    Option String × Bool :=
  if pyStrip text = "" then (some "", false)
  else
    match complete (system_prompt glossary style_guide) text with
    | Except.ok content => (some (pyStrip content), true)
    | Except.error _ => (none, true)

/-- `edited_df.dropna(subset=['영어','한글'], how='all')` of the save handler
(app.py line 144): drop only the rows where BOTH cells are missing; the
result is both persisted and stored in the session (lines 145-146). -/
def saveGlossaryAction (edited : List GlossaryRow) : List GlossaryRow :=
  edited.filter (fun r => r.eng.isSome || r.kor.isSome)

/-- The in-memory (`st.session_state.glossary_df`) and persisted
(`glossary.csv`) glossary tables. -/
structure AppState where
  sessionGlossary : List GlossaryRow
  diskGlossary : List GlossaryRow
deriving DecidableEq

/-- An uploaded CSV as seen by the bulk-import handler: its column headers,
and its rows projected to the two glossary fields. -/
structure UploadedCsv where
  columns : List String
  rows : List GlossaryRow
deriving DecidableEq

/-- Outcome reported by the bulk-import handler: the column-validation error
(app.py line 162), a successful import (line 177), or no new words (line 180). -/
inductive ImportResult
  | columnError
  | imported (added skipped : Nat)
  | noNewWords (skipped : Nat)
deriving DecidableEq

/-- The bulk-import handler, app.py lines 161-180: abort with an error when a
required column is missing; otherwise merge, and persist the merged table only
when at least one row was added. -/
def bulkImportHandler (st : AppState) (file : UploadedCsv) :
    AppState × ImportResult :=
  if "영어" ∉ file.columns ∨ "한글" ∉ file.columns then
    (st, ImportResult.columnError)
  else
    match mergeGlossary st.sessionGlossary file.rows with
    | (merged, added, skipped) =>
      if added > 0 then
        ({ sessionGlossary := merged, diskGlossary := merged },
         ImportResult.imported added skipped)
      else
        (st, ImportResult.noNewWords skipped)

/-- `default_style` of app.py line 42. -/
def default_style : String :=
  "번역 스타일: 공식적이고 전문적인 톤을 유지하며, 문장은 명확하고 간결하게 작성합니다. 모든 번역은 존댓말을 사용합니다."

/-- `load_style_guide` of app.py lines 39-46, with the file contents made an
explicit `Option String` (`none` = file absent): when the file is absent it is
first written with `default_style`, then the file is read and its contents
returned. Result: (returned string, file contents afterwards). -/
def load_style_guide (store : Option String) : String × Option String :=
  match store with
  | none => (default_style, some default_style)
  | some s => (s, some s)

/-- Projection of the merge result onto the merged table. -/
theorem mergeGlossary_fst (existing incoming : List GlossaryRow) :
    (mergeGlossary existing incoming).1 =
      if ((dropMissing incoming).filter (fun r => !(rowIsDup existing r))).length > 0
      then existing ++ (dropMissing incoming).filter (fun r => !(rowIsDup existing r))
      else existing := rfl

/-- Projection of the merge result onto `added_count`. -/
theorem mergeGlossary_added (existing incoming : List GlossaryRow) :
    (mergeGlossary existing incoming).2.1 =
      ((dropMissing incoming).filter (fun r => !(rowIsDup existing r))).length := rfl

/-- The lower-cased source terms of a concatenation of tables. -/
theorem existingWords_append (a b : List GlossaryRow) :
    existingWords (a ++ b) = existingWords a ++ existingWords b := by
  simp [existingWords, List.filterMap_append]

/-- Membership in the lower-cased source-term set of a table. -/
theorem mem_existingWords {x : String} {g : List GlossaryRow} :
    x ∈ existingWords g ↔ ∃ e, (∃ r ∈ g, r.eng = some e) ∧ pyLower e = x := by
  simp [existingWords]

/-- A row with source term `e` is reported a duplicate exactly when the
lower-cased `e` already occurs among the existing lower-cased source terms. -/
theorem rowIsDup_eq_true {current : List GlossaryRow} {r : GlossaryRow} {e : String}
    (he : r.eng = some e) :
    (rowIsDup current r = true ↔ pyLower e ∈ existingWords current) := by
  simp [rowIsDup, he]

/-- Rows with a missing cell contribute no serialized glossary line. -/
theorem glossaryLines_dropMissing (g : List GlossaryRow) :
    glossaryLines (dropMissing g) = glossaryLines g := by
  induction g with
  | nil => rfl
  | cons r t ih =>
    obtain ⟨eng, kor⟩ := r
    cases eng <;> cases kor <;>
      simp_all [dropMissing, glossaryLines, glossaryLine, List.filter_cons, List.filterMap_cons]

/-- C1: for existing = [("hello","안녕")] and incoming =
[("Hello","안녕하세요"), ("world","세계")], the merge returns added_count = 1,
skipped_count = 1, and the merged glossary is exactly
[("hello","안녕"), ("world","세계")]: the case-insensitive duplicate "Hello"
is skipped and "world" is appended after the existing rows. -/
theorem merge_concrete_example :
    mergeGlossary [⟨some "hello", some "안녕"⟩]
      [⟨some "Hello", some "안녕하세요"⟩, ⟨some "world", some "세계"⟩] =
      ([⟨some "hello", some "안녕"⟩, ⟨some "world", some "세계"⟩], 1, 1) := by
  decide

/-- C10: for every bulk import that passes column validation,
added_count + skipped_count equals the number of incoming rows with both
fields present; rows with a missing field are dropped before counting. -/
theorem merge_counts_partition (existing incoming : List GlossaryRow) :
    (mergeGlossary existing incoming).2.1 + (mergeGlossary existing incoming).2.2 =
      (dropMissing incoming).length := by
  unfold mergeGlossary
  simp only
  have hle : ((dropMissing incoming).filter (fun r => !(rowIsDup existing r))).length ≤
      (dropMissing incoming).length := List.length_filter_le _ _
  omega

/-- C5: for every input text that is empty or whitespace-only, translate
returns the empty string and performs no external completion call, regardless
of the glossary, the style guide and the external call itself. -/
theorem translate_blank_short_circuit (text : String) (glossary : List GlossaryRow)
    (style_guide : String)
    (complete : String → String → Except String String)
    (h : pyStrip text = "") :
    translate_with_openai text glossary style_guide complete = (some "", false) := by
  unfold translate_with_openai
  rw [if_pos h]

/-- C5 witness: the whitespace-only text "  \n " short-circuits even with a
non-trivial glossary, style guide and external call. -/
theorem translate_blank_short_circuit_witness :
    translate_with_openai "  \n " [⟨some "cat", some "고양이"⟩] "Use formal tone."
      (fun _ _ => Except.ok "번역") = (some "", false) :=
  translate_blank_short_circuit "  \n " [⟨some "cat", some "고양이"⟩] "Use formal tone."
    (fun _ _ => Except.ok "번역") (by decide)

/-- C7: for every non-blank input, every error of the external completion call
is caught: translate then returns the failure signal `none`, which differs
from the `some ""` returned for a blank input; on success translate returns
the response text with surrounding whitespace stripped. -/
theorem translate_error_handling (text : String) (glossary : List GlossaryRow)
    (style_guide : String)
    (complete : String → String → Except String String)
    (h : pyStrip text ≠ "") :
    (∀ e, complete (system_prompt glossary style_guide) text = Except.error e →
      translate_with_openai text glossary style_guide complete = (none, true)) ∧
    (∀ r, complete (system_prompt glossary style_guide) text = Except.ok r →
      translate_with_openai text glossary style_guide complete = (some (pyStrip r), true)) ∧
    (none : Option String) ≠ some "" := by
  refine ⟨?_, ?_, by simp⟩
  · intro e he
    unfold translate_with_openai
    rw [if_neg h, he]
  · intro r hr
    unfold translate_with_openai
    rw [if_neg h, hr]

/-- C7 witness: on the input "hi", a failing external call yields the failure
signal `none` (paired with the record that the call was performed). -/
theorem translate_error_handling_witness :
    translate_with_openai "hi" [] "style" (fun _ _ => Except.error "boom") =
      (none, true) :=
  (translate_error_handling "hi" [] "style" (fun _ _ => Except.error "boom")
    (by decide)).1 "boom" rfl

/-- C8: when the uploaded file lacks either required column header, the
bulk-import handler reports the column error and leaves both the in-memory
and the persisted glossary unchanged. -/
theorem import_missing_column_aborts (st : AppState) (file : UploadedCsv)
    (h : "영어" ∉ file.columns ∨ "한글" ∉ file.columns) :
    bulkImportHandler st file = (st, ImportResult.columnError) := by
  unfold bulkImportHandler
  rw [if_pos h]

/-- C8 witness: a file with only the "영어" column is rejected and the state
(session glossary and persisted glossary) is returned unchanged. -/
theorem import_missing_column_aborts_witness :
    bulkImportHandler ⟨[⟨some "hello", some "안녕"⟩], [⟨some "hello", some "안녕"⟩]⟩
      ⟨["영어"], [⟨some "world", some "세계"⟩]⟩ =
      (⟨[⟨some "hello", some "안녕"⟩], [⟨some "hello", some "안녕"⟩]⟩,
        ImportResult.columnError) :=
  import_missing_column_aborts _ _ (Or.inr (by decide))

/-- C9: against an absent style-guide file, load_style_guide returns the fixed
default sentence and persists exactly that sentence, and a second call then
returns the identical string without further mutation of the store. -/
theorem load_style_guide_initializes :
    (load_style_guide none).1 = default_style ∧
    (load_style_guide none).2 = some default_style ∧
    load_style_guide (load_style_guide none).2 =
      ((load_style_guide none).1, (load_style_guide none).2) := by
  exact ⟨rfl, rfl, rfl⟩

/-- C6: the instruction string embeds the style guide verbatim between the
STYLE GUIDE delimiters and the glossary block between the GLOSSARY delimiters;
the serialized lines contain one line per entry with both fields present,
entries with a missing field yield no line, and with zero valid entries the
block is the literal placeholder. -/
theorem prompt_embeds_style_and_glossary (g : List GlossaryRow) (style_guide : String) :
    (∃ p q, system_prompt g style_guide =
      p ++ ("--- STYLE GUIDE ---\n    " ++ style_guide ++ "\n    --- END STYLE GUIDE ---") ++ q) ∧
    (∃ p q, system_prompt g style_guide =
      p ++ ("--- GLOSSARY ---\n    " ++ glossaryBlock g ++ "\n    --- END GLOSSARY ---") ++ q) ∧
    (∀ r ∈ g, ∀ e k, r.eng = some e → r.kor = some k →
      ("- " ++ e ++ ": " ++ k) ∈ glossaryLines g) ∧
    (∀ r ∈ g, (r.eng = none ∨ r.kor = none) → glossaryLine r = none) ∧
    (glossaryLines g = [] → glossaryBlock g = "No specific terms provided.") := by
  refine ⟨?_, ?_, ?_, ?_, ?_⟩
  · exact ⟨promptHead,
      promptMid ++ ("--- GLOSSARY ---\n    " ++ glossaryBlock g ++ "\n    --- END GLOSSARY ---") ++ promptTail,
      by simp [system_prompt, String.append_assoc]⟩
  · exact ⟨promptHead ++ ("--- STYLE GUIDE ---\n    " ++ style_guide ++ "\n    --- END STYLE GUIDE ---") ++ promptMid,
      promptTail,
      by simp [system_prompt, String.append_assoc]⟩
  · intro r hr e k he hk
    exact List.mem_filterMap.mpr ⟨r, hr, by simp [glossaryLine, he, hk]⟩
  · intro r _ h
    rcases h with h | h <;> simp [glossaryLine, h]
  · intro h
    simp [glossaryBlock, glossary_text, h, String.intercalate]

/-- C3: bulk import is idempotent: re-running the merge with the same incoming
rows against the merged result of the first application yields
added_count = 0. -/
theorem merge_idempotent (existing incoming : List GlossaryRow) :
    (mergeGlossary (mergeGlossary existing incoming).1 incoming).2.1 = 0 := by
  have key : ∀ r ∈ dropMissing incoming,
      rowIsDup (mergeGlossary existing incoming).1 r = true := by
    intro r hr
    have hb := (List.mem_filter.mp hr).2
    have heng : r.eng.isSome := Bool.and_elim_left hb
    obtain ⟨e, he⟩ := Option.isSome_iff_exists.mp heng
    rw [rowIsDup_eq_true he, mergeGlossary_fst]
    by_cases hd : rowIsDup existing r = true
    · have h1 : pyLower e ∈ existingWords existing := (rowIsDup_eq_true he).mp hd
      split
      · rw [existingWords_append]; exact List.mem_append_left _ h1
      · exact h1
    · have hru : r ∈ (dropMissing incoming).filter (fun r => !(rowIsDup existing r)) :=
        List.mem_filter.mpr ⟨hr, by simp [hd]⟩
      have hpos : ((dropMissing incoming).filter (fun r => !(rowIsDup existing r))).length > 0 :=
        List.length_pos.mpr (List.ne_nil_of_mem hru)
      rw [if_pos hpos, existingWords_append]
      exact List.mem_append_right _ (mem_existingWords.mpr ⟨e, ⟨r, hru, he⟩, rfl⟩)
  rw [mergeGlossary_added, List.length_eq_zero]
  exact List.filter_eq_nil_iff.mpr (fun r hr => by simp [key r hr])

/-- C4 counterexample: two incoming rows whose source terms differ only in
case are BOTH appended by the merge (dedup is only against the existing
table), so the serialized glossary block of the merged table has two lines
for one case-insensitive source-term group. -/
theorem merge_keeps_incoming_case_variants :
    (mergeGlossary [] [⟨some "Cat", some "고양이"⟩, ⟨some "cat", some "야옹"⟩]).1 =
      [⟨some "Cat", some "고양이"⟩, ⟨some "cat", some "야옹"⟩] ∧
    glossaryLines (mergeGlossary []
        [⟨some "Cat", some "고양이"⟩, ⟨some "cat", some "야옹"⟩]).1 =
      ["- Cat: 고양이", "- cat: 야옹"] ∧
    pyLower "Cat" = pyLower "cat" := by
  decide

/-- C4 (amended): the merge never appends a row whose lower-cased source term
already occurs in the existing table, so when the existing table and the
incoming rows are each free of case-insensitive source-term duplicates, the
merged table is too; duplicates inside the incoming rows themselves are,
however, not deduplicated. -/
theorem merge_preserves_ci_uniqueness (existing incoming : List GlossaryRow)
    (h1 : (existingWords existing).Nodup)
    (h2 : (existingWords incoming).Nodup) :
    (existingWords (mergeGlossary existing incoming).1).Nodup := by
  have hsub : List.Sublist
      ((dropMissing incoming).filter (fun r => !(rowIsDup existing r))) incoming :=
    (List.filter_sublist _).trans (List.filter_sublist _)
  have hsubw : List.Sublist
      (existingWords ((dropMissing incoming).filter (fun r => !(rowIsDup existing r))))
      (existingWords incoming) :=
    List.Sublist.map _ (List.Sublist.filterMap _ hsub)
  have hnodup_u := h2.sublist hsubw
  have hdisj : (existingWords existing).Disjoint
      (existingWords ((dropMissing incoming).filter (fun r => !(rowIsDup existing r)))) := by
    intro x hx hxu
    obtain ⟨e, ⟨r, hru, he⟩, hpe⟩ := mem_existingWords.mp hxu
    have hd : ¬(rowIsDup existing r = true) := by
      have := (List.mem_filter.mp hru).2
      simp at this
      simp [this]
    exact hd ((rowIsDup_eq_true he).mpr (hpe ▸ hx))
  rw [mergeGlossary_fst]
  split
  · rw [existingWords_append]
    exact List.nodup_append.mpr ⟨h1, hnodup_u, hdisj⟩
  · exact h1

/-- C4 (amended) witness: a case-insensitively duplicate-free existing table
and incoming table merge to a case-insensitively duplicate-free table. -/
theorem merge_preserves_ci_uniqueness_witness :
    (existingWords [⟨some "hello", some "안녕"⟩]).Nodup ∧
    (existingWords [⟨some "Hello", some "하이"⟩, ⟨some "world", some "세계"⟩]).Nodup ∧
    (existingWords (mergeGlossary [⟨some "hello", some "안녕"⟩]
        [⟨some "Hello", some "하이"⟩, ⟨some "world", some "세계"⟩]).1).Nodup :=
  ⟨by decide, by decide,
    merge_preserves_ci_uniqueness _ _ (by decide) (by decide)⟩

/-- C2 counterexample: the save action persists a row whose target term is
missing: `dropna(how='all')` drops only rows with BOTH cells missing, so the
persisted table does contain an entry with a missing field. -/
theorem save_persists_half_empty_row :
    (⟨some "cat", none⟩ : GlossaryRow) ∈ saveGlossaryAction [⟨some "cat", none⟩] ∧
    (⟨some "cat", none⟩ : GlossaryRow).kor = none := by
  decide

/-- C2 (amended): the save action drops exactly the rows with BOTH fields
missing (every persisted row has at least one field present), and entries
with either field missing contribute no line to the serialized glossary block
used in the prompt. -/
theorem save_keeps_nonempty_rows_and_prompt_skips_invalid (edited g : List GlossaryRow) :
    (∀ r ∈ saveGlossaryAction edited, r.eng.isSome ∨ r.kor.isSome) ∧
    glossary_text (dropMissing g) = glossary_text g := by
  constructor
  · intro r hr
    have hb := (List.mem_filter.mp hr).2
    simpa using hb
  · unfold glossary_text
    rw [glossaryLines_dropMissing]
